import Mathlib

/-!
Verification of the Teacher Dashboard backend (src/app.js) against its
natural-language specification.  The JavaScript endpoint handlers are
shallowly embedded as Lean functions over lists of raw spreadsheet rows:
a raw row is a list of string cells, a missing cell (reading past the end
of a ragged row, JavaScript undefined) is modelled as Option.none, and
JavaScript truthiness of a string cell (undefined and the empty string
are falsy) is made explicit in the helper functions below.
-/

namespace TeacherDashboard

/-- Read cell number i of a raw row. The result none models the
JavaScript value undefined obtained by indexing past the end of the row. -/
def getCell (row : List String) (i : Nat) : Option String :=
  row.get? i

/-- JavaScript c || d for a string cell c and string literal d:
the default d is taken when the cell is undefined or the empty string
(both falsy in JavaScript). -/
def jsOrStr (c : Option String) (d : String) : String :=
  match c with
  | some s => if s = "" then d else s
  | none => d

/-- JavaScript c || d where the alternative is itself possibly undefined
(as in nextAssessment.title || nextAssessment.name). -/
def jsOrOpt (c : Option String) (d : Option String) : Option String :=
  match c with
  | some s => if s = "" then d else some s
  | none => d

/-- JavaScript Math.round on the exact nonnegative rational num/den
(den > 0): Math.round x = floor (x + 1/2), here computed on naturals as
(2*num + den) / (2*den) with floor division. -/
def jsRoundNat (num den : Nat) : Nat :=
  (2 * num + den) / (2 * den)

/-- JavaScript Math.round on an exact rational: floor (x + 1/2). -/
def jsRoundQ (x : ℚ) : ℤ :=
  ⌊x + 1/2⌋

/-! ## POST /api/auth (src/app.js lines 73-107)

The handler rejects a falsy employeeId with 400, then runs
rows.find(row => row[0] === employeeId) over ALL fetched rows -- the
header row is not sliced off here -- and returns 401 when the search
fails, 200 when it succeeds. -/

/-- Outcome of the auth endpoint: 400, 401 or 200. -/
inductive AuthResult where
  | badRequest : AuthResult
  | invalid : AuthResult
  | ok : AuthResult
deriving DecidableEq

/-- Embedding of the /api/auth handler body. The rows argument is the
full fetched Authentication range, header included, exactly as the code
passes it to rows.find. A missing employeeId is modelled as the empty
string (falsy). -/
def authEndpoint (rows : List (List String)) (employeeId : String) : AuthResult :=
  if employeeId = "" then AuthResult.badRequest
  else if (rows.find? (fun row => getCell row 0 = some employeeId)).isSome then AuthResult.ok
  else AuthResult.invalid

/-! ## Row mapping (enrollment-data lines 246-257, discipline-data lines 514-521) -/

/-- Student record produced by the enrollment-data endpoint.  Fields read
directly from the row stay Option String: none models a JavaScript
undefined property, which res.json drops from the serialized object.
Only status carries an explicit || default in the code. -/
structure StudentRec where
  rollNo : Option String
  name : Option String
  gender : Option String
  category : Option String
  serviceCategory : Option String
  contact : Option String
  status : String
deriving DecidableEq

/-- Embedding of the row -> student mapping of /api/enrollment-data. -/
def mapStudent (row : List String) : StudentRec :=
  { rollNo := getCell row 0
    name := getCell row 1
    gender := getCell row 2
    category := getCell row 3
    serviceCategory := getCell row 4
    contact := getCell row 5
    status := jsOrStr (getCell row 6) "Active" }

/-- Discipline record produced by the discipline-data endpoint; only
actionTaken carries an explicit || default in the code. -/
structure DisciplineRec where
  id : Option String
  date : Option String
  studentName : Option String
  rollNo : Option String
  description : Option String
  actionTaken : String
deriving DecidableEq

/-- Embedding of the row -> discipline mapping of /api/discipline-data. -/
def mapDiscipline (row : List String) : DisciplineRec :=
  { id := getCell row 0
    date := getCell row 1
    studentName := getCell row 2
    rollNo := getCell row 3
    description := getCell row 4
    actionTaken := jsOrStr (getCell row 5) "Verbal Warning" }

/-! ## GET /api/attendance-data, weeklyAverage (lines 599-602)

The code computes
  Math.round((totalPresent7Days / totalRecords7Days) * 100) || 90
over the attendance rows whose date cell (column 1) lies in the
last-7-days window.  The || 90 fallback fires both when the quotient is
NaN (zero records in the window) and when the rounded percentage is the
falsy number 0. -/

/-- Membership of an attendance row in the 7-day window, by exact string
equality on the date cell (column 1); a missing cell never matches. -/
def inWindow (window : List String) (a : List String) : Bool :=
  match getCell a 1 with
  | some d => window.contains d
  | none => false

/-- Test for a Present attendance record (column 3). -/
def isPresent (a : List String) : Bool :=
  getCell a 3 = some "Present"

/-- Embedding of the weeklyAverage computation of /api/attendance-data:
attendance is the data-row list (header already sliced off by the code),
window the set of the last seven date strings.  The two 90 branches are
the JavaScript || 90 applied to NaN (no records) and to 0. -/
def weeklyAverage (attendance : List (List String)) (window : List String) : Nat :=
  let recs := attendance.filter (inWindow window)
  let p := (recs.filter isPresent).length
  let t := recs.length
  if t = 0 then 90
  else if jsRoundNat (100 * p) t = 0 then 90
  else jsRoundNat (100 * p) t

/-! ## GET /api/categories-data, casteCategories (lines 279-288) -/

/-- The fixed caste label set enumerated at lines 282-288 (the same five
labels appear in dashboard-data at lines 203-209). -/
def casteLabels : List String :=
  ["General", "OBC", "SC", "ST", "Muslim"]

/-- Embedding of the casteCategories aggregation: one (name, count) pair
per enumerated label, counting the students whose category cell
(column 3) equals that label. -/
def casteCategories (students : List (List String)) : List (String × Nat) :=
  casteLabels.map (fun l => (l, (students.filter (fun s => getCell s 3 = some l)).length))

/-! ## GET /api/calendar-data, calendarData grid (lines 898-931)

Dates are modelled as absolute day numbers (an integer, day 0 being the
JavaScript epoch day 1970-01-01, a Thursday), so date-string equality of
the code becomes integer equality and getDay becomes arithmetic mod 7. -/

/-- JavaScript Date.getDay over absolute day numbers: day 0 is a
Thursday, so the Sunday-first weekday index is (d + 4) mod 7. -/
def jsGetDay (d : ℤ) : ℤ :=
  (d + 4) % 7

/-- One cell of the calendar grid; date is the absolute day number of
the cell and isToday the flag computed by string comparison in the code. -/
structure CalCell where
  date : ℤ
  isToday : Bool
deriving DecidableEq

/-- Embedding of the cell construction inside the nested loops at lines
905-928: the cell date is today - today.getDay() + day + week*7. -/
def calendarCell (today : ℤ) (week day : Nat) : CalCell :=
  let date := today - jsGetDay today + day + 7 * week
  { date := date, isToday := decide (date = today) }

/-- Embedding of the calendarData grid: 5 weeks of 7 day cells. -/
def calendarData (today : ℤ) : List (List CalCell) :=
  (List.range 5).map (fun week => (List.range 7).map (fun day => calendarCell today week day))

/-! ## GET /api/workshops-data (lines 450-489)

The Math.random() draw at lines 465 and 486 is modelled by an explicit
rational parameter r with 0 <= r < 1; the code computes
Math.floor(r * 30 + 15).toString(). -/

/-- JavaScript cell ? cell.split(·,·).map(trim) : [] used for the
comma-joined session cells: a missing or empty (falsy) cell yields the
empty list, otherwise split on the comma and trim each segment. -/
def jsSplitTrim (c : Option String) : List String :=
  match c with
  | some s => if s = "" then [] else (s.splitOn ",").map String.trim
  | none => []

/-- The participant count drawn when the status is not Scheduled:
Math.floor(r * 30 + 15) for a Math.random() result r. -/
def participantsDraw (r : ℚ) : ℤ :=
  ⌊r * 30 + 15⌋

/-- One parsed session of a workshop or service course. -/
structure SessionRec where
  date : String
  topic : String
deriving DecidableEq

/-- Workshop (and service course) record of /api/workshops-data. -/
structure WorkshopRec where
  id : Option String
  title : Option String
  duration : Option String
  status : Option String
  participants : String
  sessions : List SessionRec
deriving DecidableEq

/-- Embedding of the workshop row mapping at lines 450-468; topicDefault
is the per-list session-topic fallback (General Discussion for
workshops, General Course Content for service courses) and r the
Math.random() draw of this row. -/
def mkWorkshop (topicDefault : String) (row : List String) (r : ℚ) : WorkshopRec :=
  let sessionDates := jsSplitTrim (getCell row 4)
  let sessionTopics := jsSplitTrim (getCell row 5)
  { id := getCell row 0
    title := getCell row 1
    duration := getCell row 2
    status := getCell row 3
    participants :=
      if getCell row 3 = some "Scheduled" then "0" else toString (participantsDraw r)
    sessions := sessionDates.enum.map
      (fun p => { date := p.2, topic := jsOrStr (sessionTopics.get? p.1) topicDefault }) }

/-! ## GET /api/syllabus-data, completionPercentage (lines 800-803)

completionPercentage = Math.round((completedTopics / totalTopics) * 100)
with no guard on totalTopics = 0: the quotient 0/0 is NaN, Math.round NaN
is NaN, and res.json serializes NaN as null.  NaN/null is modelled as
Option.none. -/

/-- Embedding of the completionPercentage computation; rawRows is the
fetched Syllabus range, header included (the code slices it off). -/
def completionPercentage (rawRows : List (List String)) : Option ℤ :=
  let syllabusData := rawRows.drop 1
  let totalTopics := syllabusData.length
  let completedTopics := (syllabusData.filter (fun row => getCell row 5 = some "Completed")).length
  if totalTopics = 0 then none
  else some (jsRoundQ ((completedTopics : ℚ) / (totalTopics : ℚ) * 100))

/-! ## GET /api/student-details/:id (lines 1020-1111) -/

/-- The student lookup at line 1060: first data row whose roll-number
cell (column 0) equals the requested id. -/
def findStudent (students : List (List String)) (id : String) : Option (List String) :=
  students.find? (fun s => getCell s 0 = some id)

/-- Embedding of studentAchievements at lines 1080-1082: achievement
rows whose studentName cell (column 2) equals the name cell (column 1)
of the looked-up student row, mapped to their title cell (column 3).
The comparison is the JavaScript a[2] === student[1], so two undefined
cells also match (none = none). -/
def studentAchievements (achievements : List (List String)) (student : List String) : List (Option String) :=
  (achievements.filter (fun a => getCell a 2 = getCell student 1)).map (fun a => getCell a 3)

/-- Output shape of one discipline record in the student-details view. -/
structure DisciplineOut where
  id : Option String
  date : Option String
  incident : Option String
  action : String
deriving DecidableEq

/-- Embedding of disciplineRecords at lines 1070-1077: discipline rows
whose rollNo cell (column 3) equals the requested student id. -/
def disciplineRecordsFor (disciplines : List (List String)) (id : String) : List DisciplineOut :=
  (disciplines.filter (fun d => getCell d 3 = some id)).map
    (fun d => { id := getCell d 0, date := getCell d 1, incident := getCell d 4,
                action := jsOrStr (getCell d 5) "Verbal Warning" })

/-! ## GET /api/assessments-data (lines 676-774)

Two host primitives are passed in as parameters: pf models
parseFloat on a string cell (none for NaN), and dv models the timestamp
new Date(s).getTime() used by the date comparators. -/

/-- One processed assessment (lines 698-718).  average is none when no
grade row references the assessment (null in the response). -/
structure AssessmentRec where
  id : Option String
  date : Option String
  title : Option String
  ty : Option String
  maxScore : Option String
  average : Option ℤ
  status : Option String
deriving DecidableEq

/-- parseFloat(g[3]) || 0 of line 705: a missing cell or an unparsable
string (NaN) falls back to 0. -/
def gradePct (pf : String → Option ℚ) (g : List String) : ℚ :=
  ((getCell g 3).bind pf).getD 0

/-- The per-assessment average of lines 700-707: grade rows are matched
on g[0] === assessment[0] (so two undefined cells match), and the mean
percentage is rounded; none models the null kept when no grades exist. -/
def assessmentAverage (pf : String → Option ℚ) (grades : List (List String)) (aid : Option String) : Option ℤ :=
  let gs := grades.filter (fun g => getCell g 0 = aid)
  if gs.length = 0 then none
  else some (jsRoundQ ((gs.map (gradePct pf)).sum / (gs.length : ℚ)))

/-- The row -> assessment mapping of lines 698-718. -/
def mkAssessment (pf : String → Option ℚ) (grades : List (List String)) (row : List String) : AssessmentRec :=
  { id := getCell row 0
    date := getCell row 1
    title := getCell row 2
    ty := getCell row 3
    maxScore := getCell row 4
    average := assessmentAverage pf grades (getCell row 0)
    status := getCell row 5 }

/-- Ascending date order used by the sort comparators
(new Date(a.date) - new Date(b.date)); dv is the timestamp primitive. -/
def dateLe (dv : Option String → ℤ) (a b : AssessmentRec) : Bool :=
  dv a.date ≤ dv b.date

/-- Descending date order (new Date(b.date) - new Date(a.date)). -/
def dateGe (dv : Option String → ℤ) (a b : AssessmentRec) : Bool :=
  dv b.date ≤ dv a.date

/-- The assessmentsData list of the endpoint: both raw tables with their
header rows sliced off, each assessment processed, then the in-place
date-ascending sort of line 721 (a stable sort, as in JavaScript). -/
def assessmentsData (pf : String → Option ℚ) (dv : Option String → ℤ)
    (rawAssessments rawGrades : List (List String)) : List AssessmentRec :=
  (((rawAssessments.drop 1).map (mkAssessment pf (rawGrades.drop 1)))).mergeSort (dateLe dv)

/-- JavaScript truthiness of a.average: null and 0 are falsy. -/
def avgTruthy (a : AssessmentRec) : Bool :=
  match a.average with
  | some z => decide (z ≠ 0)
  | none => false

/-- The nextAssessment part of the response (lines 724-727 and 765-768):
the first Scheduled entry of the sorted list, or the literal fallback
object; the response name field is nextAssessment.title ||
nextAssessment.name, and the fallback object has no title. -/
structure NextAssessmentOut where
  date : Option String
  name : Option String
deriving DecidableEq

/-- Embedding of nextAssessment construction over the sorted list. -/
def nextAssessmentOut (data : List AssessmentRec) : NextAssessmentOut :=
  match data.find? (fun a => a.status = some "Scheduled") with
  | some a => { date := a.date, name := jsOrOpt a.title none }
  | none => { date := some "Apr 15", name := jsOrOpt none (some "Unit Test 3") }

/-- Embedding of lastAssessmentAverage (lines 730-731): the Completed
entries with truthy average, sorted date-descending, first one taken;
76 when none exists. -/
def lastAssessmentAverage (dv : Option String → ℤ) (data : List AssessmentRec) : ℤ :=
  match ((data.filter (fun a => a.status = some "Completed" && avgTruthy a)).mergeSort (dateGe dv)).head? with
  | some a => a.average.getD 0
  | none => 76

/-- One performanceTrend entry {assessment, average}. -/
structure TrendEntry where
  assessment : Option String
  average : Option ℤ
deriving DecidableEq

/-- The four fixed synthetic trend entries pushed at lines 758-761. -/
def syntheticTrend : List TrendEntry :=
  [ { assessment := some "Unit Test 1", average := some 72 }
  , { assessment := some "Mid Term", average := some 76 }
  , { assessment := some "Unit Test 2", average := some 78 }
  , { assessment := some "Assignment 3", average := some 82 } ]

/-- The qualifying filter of line 747: status Completed and truthy
average. -/
def trendQual (a : AssessmentRec) : Bool :=
  a.status = some "Completed" && avgTruthy a

/-- The real part of performanceTrend (lines 746-754): qualifying
entries sorted date-ascending, the first 5 taken, mapped to
{assessment, average}. -/
def completedTrendReal (dv : Option String → ℤ) (data : List AssessmentRec) : List TrendEntry :=
  (((data.filter trendQual).mergeSort (dateLe dv)).take 5).map
    (fun a => { assessment := a.title, average := a.average : TrendEntry })

/-- Embedding of performanceTrend (lines 746-762): the real entries,
with the four synthetic entries appended when fewer than 3 real entries
resulted. -/
def performanceTrend (dv : Option String → ℤ) (data : List AssessmentRec) : List TrendEntry :=
  if (completedTrendReal dv data).length < 3
  then completedTrendReal dv data ++ syntheticTrend
  else completedTrendReal dv data

/-! ## Theorems -/

/-- C1: the claim as frozen is false on the code.  The handler runs
rows.find over the full fetched range without slicing the header off, so
an employeeId equal to the first cell of the header row is authenticated
with 200 even though no data row matches it. -/
theorem authEndpoint_header_counterexample :
    authEndpoint [["E0", "tok"], ["E1", "tok"]] "E0" = AuthResult.ok ∧
    (([["E0", "tok"], ["E1", "tok"]].drop 1).all
      (fun row => !(decide (getCell row 0 = some "E0")))) = true ∧
    AuthResult.ok ≠ AuthResult.invalid := by
  decide

/-- C1 (amended): for a nonempty employeeId, POST /api/auth returns 401
with Invalid Employee ID if and only if no fetched row AT ALL -- the
header row included -- has its first cell equal to employeeId; an
employeeId equal to the first cell of the header row is authenticated. -/
theorem authEndpoint_invalid_iff (rows : List (List String)) (employeeId : String)
    (h : employeeId ≠ "") :
    authEndpoint rows employeeId = AuthResult.invalid ↔
      ∀ row ∈ rows, getCell row 0 ≠ some employeeId := by
  unfold authEndpoint
  rw [if_neg h]
  by_cases hf : (rows.find? (fun row => getCell row 0 = some employeeId)).isSome
  · rw [if_pos hf]
    rw [List.find?_isSome] at hf
    obtain ⟨row, hmem, hrow⟩ := hf
    simp only [decide_eq_true_eq] at hrow
    constructor
    · intro hcontra
      exact absurd hcontra (by simp)
    · intro hall
      exact absurd hrow (hall row hmem)
  · rw [if_neg hf]
    simp only [true_iff, eq_self_iff_true]
    intro row hmem
    rw [Bool.not_eq_true, Option.not_isSome, Option.isNone_iff_eq_none] at hf
    rw [List.find?_eq_none] at hf
    have := hf row hmem
    simpa using this

/-- C1 witness: the amended theorem applied at a concrete table and a
concrete unknown employeeId. -/
theorem authEndpoint_invalid_iff_witness :
    ("E2" : String) ≠ "" ∧
    (authEndpoint [["E0", "tok"]] "E2" = AuthResult.invalid ↔
      ∀ row ∈ [["E0", "tok"]], getCell row 0 ≠ some "E2") :=
  ⟨by decide, authEndpoint_invalid_iff [["E0", "tok"]] "E2" (by decide)⟩

/-- C2: the claim as frozen is false on the code.  With exactly one
attendance record in the 7-day window, which is Absent (p = 0, t = 1),
the claim says weeklyAverage = round(100*0/1) = 0, but the JavaScript
expression Math.round((0/1)*100) || 90 evaluates to 90 because the
rounded percentage 0 is falsy. -/
theorem weeklyAverage_zero_present_counterexample :
    weeklyAverage [["A1", "D1", "101", "Absent"]] ["D1"] = 90 ∧
    ([["A1", "D1", "101", "Absent"]].filter (inWindow ["D1"])).length = 1 ∧
    (([["A1", "D1", "101", "Absent"]].filter (inWindow ["D1"])).filter isPresent).length = 0 ∧
    jsRoundNat (100 * 0) 1 = 0 ∧
    (90 : Nat) ≠ 0 := by
  decide

/-- C2 (amended): with t the number of attendance records in the 7-day
window and p the Present ones among them, weeklyAverage equals
round(100*p/t) whenever t > 0 and that rounded value is nonzero
(equivalently 200*p >= t), and equals the constant 90 both when t = 0
and when the rounded value is 0 (in particular whenever p = 0). -/
theorem weeklyAverage_eq (attendance : List (List String)) (window : List String) :
    weeklyAverage attendance window =
      if (attendance.filter (inWindow window)).length = 0
          ∨ 200 * ((attendance.filter (inWindow window)).filter isPresent).length
              < (attendance.filter (inWindow window)).length
      then 90
      else jsRoundNat (100 * ((attendance.filter (inWindow window)).filter isPresent).length)
             (attendance.filter (inWindow window)).length := by
  have key : ∀ p t : Nat,
      (if t = 0 then 90 else if jsRoundNat (100 * p) t = 0 then 90 else jsRoundNat (100 * p) t)
        = (if t = 0 ∨ 200 * p < t then 90 else jsRoundNat (100 * p) t) := by
    intro p t
    rcases Nat.eq_zero_or_pos t with h0 | hpos
    · rw [if_pos h0, if_pos (Or.inl h0)]
    · have hz : jsRoundNat (100 * p) t = 0 ↔ 200 * p < t := by
        unfold jsRoundNat
        rw [Nat.div_eq_zero_iff (by omega)]
        omega
      by_cases hr : jsRoundNat (100 * p) t = 0
      · rw [if_neg (by omega), if_pos hr, if_pos (Or.inr (hz.mp hr))]
      · have hge : ¬(200 * p < t) := fun hlt => hr (hz.mpr hlt)
        rw [if_neg (by omega), if_neg hr, if_neg (by omega)]
  exact key ((attendance.filter (inWindow window)).filter isPresent).length
    (attendance.filter (inWindow window)).length

/-- C3: the claim as frozen is false on the code.  Mapping the one-cell
row [101] under the Student schema of /api/enrollment-data gives status
its declared default Active, but the name field -- like every other
field without an explicit || default -- becomes undefined (dropped from
the JSON object), not an empty string or null. -/
theorem mapStudent_short_row_counterexample :
    (mapStudent ["101"]).status = "Active" ∧
    (mapStudent ["101"]).name = none ∧
    (mapStudent ["101"]).name ≠ some "" ∧
    (mapStudent ["101"]).contact = none := by
  decide

/-- C3 (amended): row mapping never raises on short rows (it is a total
function); the fields carrying an explicit default in the code take it
when the row ends before them (status defaults to Active in the Student
schema, actionTaken to Verbal Warning in the Discipline schema), while
every other field beyond the end of the row is undefined, hence absent
from the serialized record, rather than an empty string or null. -/
theorem mapRow_short_defaults (row : List String) :
    (row.length ≤ 6 → (mapStudent row).status = "Active") ∧
    (row.length ≤ 5 → (mapStudent row).contact = none) ∧
    (row.length ≤ 4 → (mapStudent row).serviceCategory = none) ∧
    (row.length ≤ 3 → (mapStudent row).category = none) ∧
    (row.length ≤ 2 → (mapStudent row).gender = none) ∧
    (row.length ≤ 1 → (mapStudent row).name = none) ∧
    (row.length = 0 → (mapStudent row).rollNo = none) ∧
    (row.length ≤ 5 → (mapDiscipline row).actionTaken = "Verbal Warning") ∧
    (row.length ≤ 4 → (mapDiscipline row).description = none) := by
  refine ⟨fun h => ?_, fun h => ?_, fun h => ?_, fun h => ?_, fun h => ?_, fun h => ?_,
    fun h => ?_, fun h => ?_, fun h => ?_⟩
  · have h6 : row[6]? = none := List.getElem?_eq_none (by omega)
    simp [mapStudent, jsOrStr, getCell, h6]
  · have h5 : row[5]? = none := List.getElem?_eq_none (by omega)
    simp [mapStudent, getCell, h5]
  · have h4 : row[4]? = none := List.getElem?_eq_none (by omega)
    simp [mapStudent, getCell, h4]
  · have h3 : row[3]? = none := List.getElem?_eq_none (by omega)
    simp [mapStudent, getCell, h3]
  · have h2 : row[2]? = none := List.getElem?_eq_none (by omega)
    simp [mapStudent, getCell, h2]
  · have h1 : row[1]? = none := List.getElem?_eq_none (by omega)
    simp [mapStudent, getCell, h1]
  · have h0 : row[0]? = none := List.getElem?_eq_none (by omega)
    simp [mapStudent, getCell, h0]
  · have h5 : row[5]? = none := List.getElem?_eq_none (by omega)
    simp [mapDiscipline, jsOrStr, getCell, h5]
  · have h4 : row[4]? = none := List.getElem?_eq_none (by omega)
    simp [mapDiscipline, getCell, h4]

/-- C3 witness: the amended theorem applied to the concrete short row
[101]. -/
theorem mapRow_short_defaults_witness :
    (mapStudent ["101"]).status = "Active" ∧
    (mapDiscipline ["101"]).actionTaken = "Verbal Warning" ∧
    (mapStudent ["101"]).contact = none :=
  ⟨(mapRow_short_defaults ["101"]).1 (by decide),
   (mapRow_short_defaults ["101"]).2.2.2.2.2.2.2.1 (by decide),
   (mapRow_short_defaults ["101"]).2.1 (by decide)⟩

/-- Counting splitter for fixed-set aggregation: when the front label
does not reappear later in the label list, the records matching any
label of the extended list split into those matching the front label
and those matching a later one. -/
theorem countP_any_cons (l : String) (ls : List String) (hl : l ∉ ls)
    (students : List (List String)) :
    students.countP (fun s => (l :: ls).any (fun lab => getCell s 3 = some lab))
      = students.countP (fun s => decide (getCell s 3 = some l))
        + students.countP (fun s => ls.any (fun lab => getCell s 3 = some lab)) := by
  induction students with
  | nil => simp
  | cons s rest ih =>
    simp only [List.countP_cons, ih]
    by_cases hc : getCell s 3 = some l
    · have h2 : (ls.any fun lab => decide (getCell s 3 = some lab)) = false := by
        rw [List.any_eq_false]
        intro lab hlab
        simp only [decide_eq_true_eq]
        intro heq
        rw [hc] at heq
        exact hl (Option.some.inj heq ▸ hlab)
      have e1 : ((l :: ls).any fun lab => decide (getCell s 3 = some lab)) = true := by
        simp [List.any_cons, hc]
      have e2 : (decide (getCell s 3 = some l)) = true := decide_eq_true hc
      rw [e1, e2, h2]
      simp
      omega
    · have e2 : (decide (getCell s 3 = some l)) = false := by
        simp [hc]
      have e1 : ((l :: ls).any fun lab => decide (getCell s 3 = some lab))
          = (ls.any fun lab => decide (getCell s 3 = some lab)) := by
        simp [List.any_cons, hc]
      rw [e1, e2]
      simp
      omega

/-- The sum of the per-label counts of a duplicate-free label list is
the number of records whose categorical cell matches some label. -/
theorem sum_label_counts (labels : List String) (h : labels.Nodup)
    (students : List (List String)) :
    (labels.map (fun l => (students.filter (fun s => getCell s 3 = some l)).length)).sum
      = students.countP (fun s => labels.any (fun lab => getCell s 3 = some lab)) := by
  induction labels with
  | nil => simp
  | cons l ls ih =>
    rw [List.nodup_cons] at h
    rw [List.map_cons, List.sum_cons, ih h.2, countP_any_cons l ls h.1 students]
    simp [List.countP_eq_length_filter]

/-- C4: for the fixed-set caste-category aggregation over the Students
rows (labels General, OBC, SC, ST, Muslim), the sum of the returned
per-label counts never exceeds the number of input records, with
equality exactly when every record has its category cell equal to one of
the enumerated labels; a record whose value is outside the label set is
counted in no bucket. -/
theorem casteCategories_sum_le (students : List (List String)) :
    ((casteCategories students).map Prod.snd).sum ≤ students.length ∧
    (((casteCategories students).map Prod.snd).sum = students.length ↔
      ∀ s ∈ students, ∃ l ∈ casteLabels, getCell s 3 = some l) := by
  have hkey : ((casteCategories students).map Prod.snd).sum
      = students.countP (fun s => casteLabels.any (fun lab => getCell s 3 = some lab)) := by
    rw [casteCategories, List.map_map]
    have : (Prod.snd ∘ fun l => (l, (students.filter (fun s => getCell s 3 = some l)).length))
        = fun l => (students.filter (fun s => getCell s 3 = some l)).length := rfl
    rw [this]
    exact sum_label_counts casteLabels (by decide) students
  constructor
  · rw [hkey]
    exact List.countP_le_length _
  · rw [hkey, List.countP_eq_length]
    constructor
    · intro hall s hs
      have := hall s hs
      rw [List.any_eq_true] at this
      obtain ⟨lab, hlab, heq⟩ := this
      exact ⟨lab, hlab, of_decide_eq_true heq⟩
    · intro hall s hs
      obtain ⟨lab, hlab, heq⟩ := hall s hs
      rw [List.any_eq_true]
      exact ⟨lab, hlab, decide_eq_true heq⟩

/-- C4 witness: the aggregation theorem instantiated on a concrete
roster with one record outside the label set, where the count sum is
strictly below the roster size. -/
theorem casteCategories_sum_le_witness :
    ((casteCategories [["1", "a", "M", "OBC"], ["2", "b", "F", "Other"]]).map Prod.snd).sum
      ≤ ([["1", "a", "M", "OBC"], ["2", "b", "F", "Other"]] : List (List String)).length :=
  (casteCategories_sum_le [["1", "a", "M", "OBC"], ["2", "b", "F", "Other"]]).1

/-- Counting the naturals below n equal to a given integer x: one when
x lies in the range, zero otherwise. -/
theorem countP_range_eq_int (x : ℤ) (n : ℕ) :
    (List.range n).countP (fun (d : ℕ) => decide ((d : ℤ) = x)) = if 0 ≤ x ∧ x < n then 1 else 0 := by
  induction n with
  | zero =>
    simp only [List.range_zero, List.countP_nil]
    split_ifs with h
    · exfalso
      push_cast at h
      omega
    · rfl
  | succ n ih =>
    rw [List.range_succ, List.countP_append, ih]
    have hsingle : (List.countP (fun (d : ℕ) => decide ((d : ℤ) = x)) [n])
        = if (n : ℤ) = x then 1 else 0 := by
      simp [List.countP_cons]
    rw [hsingle]
    split_ifs <;> push_cast at * <;> omega

/-- The isToday count within week w of the grid: one exactly when the
weekday offset of today lands in that week. -/
theorem countP_isToday_week (today : ℤ) (w : ℕ) :
    ((List.range 7).map (fun day => calendarCell today w day)).countP (fun c => c.isToday)
      = if 7 * (w : ℤ) ≤ jsGetDay today ∧ jsGetDay today < 7 * (w : ℤ) + 7 then 1 else 0 := by
  rw [List.countP_map]
  have hpred : ((fun c => c.isToday) ∘ (fun day => calendarCell today w day))
      = (fun d : ℕ => decide ((d : ℤ) = jsGetDay today - 7 * w)) := by
    funext d
    simp only [Function.comp, calendarCell]
    rw [decide_eq_decide]
    omega
  rw [hpred, countP_range_eq_int]
  split_ifs <;> push_cast at * <;> omega

/-- C5: for any value of today, the calendar grid of /api/calendar-data
has exactly 5 weeks of exactly 7 day cells each, the cell at week 0 day
0 carries the Sunday on or before today (today minus the Sunday-first
weekday offset of today), and exactly one cell across the whole 35-cell
grid has isToday set, namely the cell whose date equals today (week 0,
day equal to the weekday offset). -/
theorem calendarData_grid_spec (today : ℤ) :
    (calendarData today).length = 5 ∧
    (calendarData today).map List.length = [7, 7, 7, 7, 7] ∧
    (((calendarData today).getD 0 []).getD 0 { date := 0, isToday := false }).date
      = today - jsGetDay today ∧
    jsGetDay (today - jsGetDay today) = 0 ∧
    today - 7 < today - jsGetDay today ∧
    today - jsGetDay today ≤ today ∧
    (calendarCell today 0 (jsGetDay today).toNat).date = today ∧
    (calendarCell today 0 (jsGetDay today).toNat).isToday = true ∧
    ((calendarData today).map (fun wk => wk.countP (fun c => c.isToday))).sum = 1 := by
  have hk0 : 0 ≤ jsGetDay today := Int.emod_nonneg _ (by norm_num)
  have hk7 : jsGetDay today < 7 := Int.emod_lt_of_pos _ (by norm_num)
  refine ⟨rfl, rfl, ?_, ?_, ?_, ?_, ?_, ?_, ?_⟩
  · show (calendarCell today 0 0).date = today - jsGetDay today
    simp [calendarCell]
  · unfold jsGetDay
    omega
  · omega
  · omega
  · simp only [calendarCell]
    omega
  · have hdate : (calendarCell today 0 (jsGetDay today).toNat).date = today := by
      simp only [calendarCell]
      omega
    simp only [calendarCell] at hdate ⊢
    rw [decide_eq_true_eq]
    omega
  · have hexp : (calendarData today).map (fun wk => wk.countP (fun c => c.isToday))
        = (List.range 5).map
            (fun w => ((List.range 7).map (fun day => calendarCell today w day)).countP
              (fun c => c.isToday)) := by
      rw [calendarData, List.map_map]
      rfl
    rw [hexp]
    have h5 : List.range 5 = [0, 1, 2, 3, 4] := rfl
    rw [h5]
    simp only [List.map_cons, List.map_nil, List.sum_cons, List.sum_nil, countP_isToday_week]
    push_cast
    split_ifs <;> omega

/-- C6: when the Assessments table holds nothing but its header row
(zero data rows), /api/assessments-data answers with the literal
fallback nextAssessment (date Apr 15, name Unit Test 3, the name taken
from the fallback object because the fallback has no title) and with
lastAssessmentAverage 76, whatever the Grades table, the parseFloat
primitive and the date primitive are. -/
theorem assessments_empty_fallback (header : List String) (rawGrades : List (List String))
    (pf : String → Option ℚ) (dv : Option String → ℤ) :
    nextAssessmentOut (assessmentsData pf dv [header] rawGrades)
      = { date := some "Apr 15", name := some "Unit Test 3" } ∧
    lastAssessmentAverage dv (assessmentsData pf dv [header] rawGrades) = 76 := by
  have hempty : assessmentsData pf dv [header] rawGrades = [] := by
    unfold assessmentsData
    rw [show ([header] : List (List String)).drop 1 = [] from rfl, List.map_nil,
      List.mergeSort_nil]
  rw [hempty]
  refine ⟨rfl, ?_⟩
  unfold lastAssessmentAverage
  rw [List.filter_nil, List.mergeSort_nil]
  rfl

/-- C7: in /api/workshops-data, a workshop or service-course row whose
status cell is Scheduled gets the participants string 0, and any other
row gets the decimal string of floor(r*30 + 15), which lies in [15, 44]
for every Math.random() draw r in [0, 1). -/
theorem workshop_participants_spec (topicDefault : String) (row : List String) (r : ℚ)
    (h0 : 0 ≤ r) (h1 : r < 1) :
    (getCell row 3 = some "Scheduled" → (mkWorkshop topicDefault row r).participants = "0") ∧
    (getCell row 3 ≠ some "Scheduled" →
      (mkWorkshop topicDefault row r).participants = toString (participantsDraw r) ∧
      15 ≤ participantsDraw r ∧ participantsDraw r ≤ 44) := by
  constructor
  · intro hs
    simp [mkWorkshop, hs]
  · intro hs
    refine ⟨by simp [mkWorkshop, hs], ?_, ?_⟩
    · rw [participantsDraw, Int.le_floor]
      push_cast
      nlinarith
    · have : participantsDraw r < 45 := by
        rw [participantsDraw, Int.floor_lt]
        push_cast
        nlinarith
      omega

/-- C7 witness: both branches of the participants theorem at the
concrete draw r = 1/2 (where floor(r*30 + 15) = 30). -/
theorem workshop_participants_spec_witness :
    (mkWorkshop "General Discussion" ["W1", "T", "2h", "Scheduled"] (1/2)).participants = "0" ∧
    ((mkWorkshop "General Discussion" ["W1", "T", "2h", "Completed"] (1/2)).participants
        = toString (participantsDraw (1/2)) ∧
      15 ≤ participantsDraw (1/2) ∧ participantsDraw (1/2) ≤ 44) :=
  ⟨(workshop_participants_spec "General Discussion" ["W1", "T", "2h", "Scheduled"] (1/2)
      (by norm_num) (by norm_num)).1 (by decide),
   (workshop_participants_spec "General Discussion" ["W1", "T", "2h", "Completed"] (1/2)
      (by norm_num) (by norm_num)).2 (by decide)⟩

/-- C8: when the Syllabus table has no data rows after the header, the
syllabus-data endpoint still produces a response (the embedding is a
total function) and applies no fallback to completionPercentage: the
division by the zero topic count is unguarded, the quotient 0/0 is NaN,
and the serialized value is null -- modelled here as none -- rather
than any bounded synthetic number. -/
theorem completionPercentage_empty (rawRows : List (List String))
    (h : rawRows.drop 1 = []) :
    completionPercentage rawRows = none := by
  unfold completionPercentage
  rw [h]
  rfl

/-- C8 witness: the theorem applied to a table holding only its header
row. -/
theorem completionPercentage_empty_witness :
    ([["id", "unit", "name"]] : List (List String)).drop 1 = [] ∧
    completionPercentage [["id", "unit", "name"]] = none :=
  ⟨by decide, completionPercentage_empty [["id", "unit", "name"]] (by decide)⟩

/-- C9: in /api/student-details, achievements are joined to the student
by exact equality of the name cells (Achievements column 2 against
Students column 1) while discipline records are joined by roll number
(Discipline column 3 against the requested id); hence two students
looked up under different roll numbers but carrying the same name cell
receive identical achievement lists -- each gets the achievements of
the other. -/
theorem studentDetails_join_keys (students achievements disciplines : List (List String))
    (id1 id2 : String) (s1 s2 : List String)
    (hf1 : findStudent students id1 = some s1)
    (hf2 : findStudent students id2 = some s2)
    (hne : id1 ≠ id2)
    (hname : getCell s1 1 = getCell s2 1) :
    studentAchievements achievements s1 = studentAchievements achievements s2 ∧
    (∀ a ∈ achievements, getCell a 2 = getCell s1 1 →
      getCell a 3 ∈ studentAchievements achievements s2) ∧
    disciplineRecordsFor disciplines id1
      = (disciplines.filter (fun d => getCell d 3 = some id1)).map
          (fun d => { id := getCell d 0, date := getCell d 1, incident := getCell d 4,
                      action := jsOrStr (getCell d 5) "Verbal Warning" }) := by
  refine ⟨?_, ?_, rfl⟩
  · unfold studentAchievements
    rw [hname]
  · intro a ha hmatch
    unfold studentAchievements
    rw [List.mem_map]
    refine ⟨a, ?_, rfl⟩
    rw [List.mem_filter]
    exact ⟨ha, decide_eq_true (hname ▸ hmatch)⟩

/-- C9 witness: two distinct roll numbers with the same name cell on a
concrete roster; the theorem yields equal achievement lists. -/
theorem studentDetails_join_keys_witness :
    studentAchievements [["A1", "d", "Asha", "Prize"]] ["101", "Asha"]
      = studentAchievements [["A1", "d", "Asha", "Prize"]] ["102", "Asha"] ∧
    (∀ a ∈ [["A1", "d", "Asha", "Prize"]],
      getCell a 2 = getCell ["101", "Asha"] 1 →
      getCell a 3 ∈ studentAchievements [["A1", "d", "Asha", "Prize"]] ["102", "Asha"]) ∧
    disciplineRecordsFor [["D1", "d", "Asha", "101", "late"]] "101"
      = ([["D1", "d", "Asha", "101", "late"]].filter (fun d => getCell d 3 = some "101")).map
          (fun d => { id := getCell d 0, date := getCell d 1, incident := getCell d 4,
                      action := jsOrStr (getCell d 5) "Verbal Warning" }) :=
  studentDetails_join_keys [["101", "Asha"], ["102", "Asha"]] [["A1", "d", "Asha", "Prize"]]
    [["D1", "d", "Asha", "101", "late"]] "101" "102" ["101", "Asha"] ["102", "Asha"]
    (by decide) (by decide) (by decide) (by decide)

/-- C10: the performance trend of /api/assessments-data consists of the
real completed entries (status Completed with a non-null nonzero
average, date-ascending, at most 5) followed by exactly the four fixed
synthetic entries (Unit Test 1 at 72, Mid Term at 76, Unit Test 2 at
78, Assignment 3 at 82) precisely when fewer than 3 assessments
qualify; with 3 or more qualifying assessments nothing synthetic is
appended. -/
theorem performanceTrend_spec (dv : Option String → ℤ) (data : List AssessmentRec) :
    (completedTrendReal dv data).length = min 5 (data.filter trendQual).length ∧
    ((data.filter trendQual).length < 3 →
      performanceTrend dv data = completedTrendReal dv data ++ syntheticTrend) ∧
    (3 ≤ (data.filter trendQual).length →
      performanceTrend dv data = completedTrendReal dv data) ∧
    syntheticTrend.length = 4 ∧
    List.Pairwise (fun a b => dv a.date ≤ dv b.date)
      ((data.filter trendQual).mergeSort (dateLe dv)) := by
  have hlen : (completedTrendReal dv data).length = min 5 (data.filter trendQual).length := by
    rw [completedTrendReal, List.length_map, List.length_take, List.length_mergeSort]
  refine ⟨hlen, ?_, ?_, rfl, ?_⟩
  · intro h
    rw [performanceTrend, if_pos (by omega)]
  · intro h
    rw [performanceTrend, if_neg (by omega)]
  · have hsorted := @List.sorted_mergeSort AssessmentRec (dateLe dv)
      (fun a b c hab hbc => by
        simp only [dateLe, decide_eq_true_eq] at *
        omega)
      (fun a b => by
        simp only [dateLe]
        rcases le_total (dv a.date) (dv b.date) with h | h <;> simp [h])
      (data.filter trendQual)
    exact hsorted.imp (fun h => by simpa [dateLe] using h)

/-- C10 witness: with no assessments at all, zero entries qualify and
the trend is exactly the four synthetic entries. -/
theorem performanceTrend_spec_witness :
    (([] : List AssessmentRec).filter trendQual).length < 3 ∧
    performanceTrend (fun _ => 0) [] = completedTrendReal (fun _ => 0) [] ++ syntheticTrend :=
  ⟨by decide, (performanceTrend_spec (fun _ => 0) []).2.1 (by decide)⟩

end TeacherDashboard
